import Mathlib

/-!
Shallow embedding of the coffee-shop drinks backend (`src/backend/src/api.py`)
and verification of the frozen claims about it.

Modelling conventions:
* JSON values appearing in request bodies and stored rows are the inductive
  `JsonVal` (with `JsonList` and `JsonFields` for its arrays and objects).
  Python `None` (absent key, or JSON `null`) is `JsonVal.null`: `dict.get`
  on a missing key and an explicit JSON `null` both produce Python `None`,
  which serializes to `"null"` and compares unequal to `''`.
* `dumps` models the Python `json.dumps` call with its default separators
  `", "` and `": "`.  Control-character and non-ASCII escaping is omitted:
  no claim depends on it, only on whether the produced string is empty and
  on `dumps null = "null"`.
* The store persists the recipe as a serialized text blob and re-parses it
  on read; the spec fixes round-trip fidelity of that serialization, so the
  embedding keeps the structured value in the row and applies `dumps` where
  the code manipulates the blob as a string.
* The auth module is not part of the given sources; steps 1-5 of the
  authorizer (header extraction and token verification) are abstracted as an
  `Except AuthError Payload` input, and step 6 (`check_permissions`) is
  modelled from the spec.
-/

namespace CoffeeShop

mutual

/-- JSON values: the payloads of request bodies and the structured recipe
data stored (serialized) in a drink row. -/
inductive JsonVal where
  | null
  | bool (b : Bool)
  | num (n : Int)
  | str (s : String)
  | arr (elems : JsonList)
  | obj (fields : JsonFields)
  deriving DecidableEq

/-- The element list of a JSON array. -/
inductive JsonList where
  | nil
  | cons (head : JsonVal) (tail : JsonList)
  deriving DecidableEq

/-- The key/value list of a JSON object. -/
inductive JsonFields where
  | nil
  | cons (key : String) (val : JsonVal) (tail : JsonFields)
  deriving DecidableEq

end

/-- Escape one character as the Python json encoder does for quotes and
backslashes (control characters do not occur in the claims). -/
def escapeChar (c : Char) : String :=
  if c = '"' then "\\\"" else if c = '\\' then "\\\\" else String.singleton c

/-- Escape a string for inclusion in a JSON string literal. -/
def escapeStr (s : String) : String :=
  String.join (s.data.map escapeChar)

mutual

/-- Python `json.dumps` with default separators. -/
def dumps : JsonVal → String
  | .null => "null"
  | .bool true => "true"
  | .bool false => "false"
  | .num n => Int.repr n
  | .str s => "\"" ++ escapeStr s ++ "\""
  | .arr elems => "[" ++ dumpsList elems ++ "]"
  | .obj fields => "\x7b" ++ dumpsFields fields ++ "\x7d"

/-- Serialize the comma-separated element list of a JSON array. -/
def dumpsList : JsonList → String
  | .nil => ""
  | .cons v .nil => dumps v
  | .cons v rest => dumps v ++ ", " ++ dumpsList rest

/-- Serialize the comma-separated key/value list of a JSON object. -/
def dumpsFields : JsonFields → String
  | .nil => ""
  | .cons k v .nil => "\"" ++ escapeStr k ++ "\": " ++ dumps v
  | .cons k v rest => "\"" ++ escapeStr k ++ "\": " ++ dumps v ++ ", " ++ dumpsFields rest

end

/-- Python `value == ''` on a JSON-decoded value: true exactly for the
empty JSON string (no other JSON-decoded Python value compares equal to
the empty string). -/
def pyEqEmptyStr (v : JsonVal) : Bool :=
  decide (v = JsonVal.str "")

/-- A persisted drink row.  `recipe` holds the structured value whose
serialization is the stored text blob (round-trip fidelity per the spec). -/
structure Drink where
  id : Nat
  title : JsonVal
  recipe : JsonVal
  deriving DecidableEq

/-- The drinks table plus the id generator.  Modelled from the spec: `id`
is "system-generated, unique, immutable once assigned" and a fresh create
yields an id "not previously seen", so ids come from a counter that never
reuses a value. -/
structure Store where
  drinks : List Drink
  nextId : Nat
  deriving DecidableEq

/-- A parsed JSON request body as the handlers read it: the results of
`body.get` on the title and recipe keys, with `JsonVal.null` for an absent
key (Python `None`). -/
structure Body where
  title : JsonVal
  recipe : JsonVal
  deriving DecidableEq

/-- Field lookup in a JSON object. -/
def lookupField (fields : JsonFields) (key : String) : Option JsonVal :=
  match fields with
  | .nil => none
  | .cons k v rest => if k = key then some v else lookupField rest key

/-- Modelled from the spec: one entry of the summary view recipe,
`{color, parts}` with the ingredient name omitted.  `none` when the stored
entry is not an object carrying both fields (a server-side fault). -/
def shortRecipeEntry : JsonVal → Option JsonVal
  | .obj fields =>
    match lookupField fields ("color"), lookupField fields ("parts") with
    | some c, some p => some (.obj (.cons ("color") c (.cons ("parts") p .nil)))
    | _, _ => none
  | _ => none

/-- Apply `shortRecipeEntry` to every entry of a recipe array, failing when
any entry fails. -/
def shortRecipeList : JsonList → Option JsonList
  | .nil => some .nil
  | .cons v rest =>
    match shortRecipeEntry v, shortRecipeList rest with
    | some v1, some rest1 => some (.cons v1 rest1)
    | _, _ => none

/-- Modelled from the spec: `drink.short()`, the summary view
`{id, title, recipe: [{color, parts} ...]}` obtained by parsing the stored
blob; `none` when the blob is not an array of well-formed entries (a
server-side fault, not a client error). -/
def Drink.short (d : Drink) : Option JsonVal :=
  match d.recipe with
  | .arr entries =>
    (shortRecipeList entries).map
      (fun l => JsonVal.obj
        (.cons ("id") (.num d.id) (.cons ("title") d.title (.cons ("recipe") (.arr l) .nil))))
  | _ => none

/-- Modelled from the spec: `drink.long()`, the detailed view
`{id, title, recipe: [{name, color, parts} ...]}`: the recipe field is the
full structured data parsed back from the stored blob. -/
def Drink.long (d : Drink) : JsonVal :=
  .obj (.cons ("id") (.num d.id) (.cons ("title") d.title (.cons ("recipe") d.recipe .nil)))

/-- A typed authorization failure: an error code and a human-readable
description, as raised by the auth module and consumed by the `AuthError`
handler in `api.py`. -/
structure AuthError where
  code : String
  description : String
  deriving DecidableEq

/-- The decoded claims object produced by token verification; the routes
only ever inspect its permission list. -/
structure Payload where
  permissions : Option (List String)
  deriving DecidableEq

/-- Modelled from the spec: step 6 of the authorizer.  A missing
permissions entry fails with "no permissions in payload"; a present list
lacking the required permission fails with "unauthorized". -/
def check_permissions (permission : String) (payload : Payload) : Except AuthError Unit :=
  match payload.permissions with
  | none => .error ⟨"missing permission claim", "no permissions in payload"⟩
  | some ps =>
    if permission ∈ ps then .ok () else .error ⟨"insufficient permission", "unauthorized"⟩

/-- Modelled from the spec: the `requires_auth` gate.  Steps 1-5 (header
extraction and token verification) are the `tok` input; step 6 checks the
required permission; on success the decoded payload is passed to the
handler. -/
def requires_auth (permission : String) (tok : Except AuthError Payload) :
    Except AuthError Payload :=
  match tok with
  | .error e => .error e
  | .ok payload =>
    match check_permissions permission payload with
    | .error e => .error e
    | .ok _ => .ok payload

/-- The body of a successful (200) response. -/
inductive SuccessBody where
  | drinks (drinks : List JsonVal)
  | deleted (id : Nat)
  deriving DecidableEq

/-- What a route handler produces before the registered error handlers
run: a 200 body, an abort with a status, an `AuthError`, or an unhandled
exception. -/
inductive HResult where
  | ok (body : SuccessBody)
  | aborted (status : Nat)
  | authFail (e : AuthError)
  | fault
  deriving DecidableEq

/-- The JSON envelope of every error response. -/
structure ErrorBody where
  success : Bool
  error : Nat
  message : String
  deriving DecidableEq

/-- The 422 handler body. -/
def unprocessable : ErrorBody :=
  ⟨false, 422, "unprocessable"⟩

/-- The 404 handler body. -/
def resource_not_found : ErrorBody :=
  ⟨false, 404, "resource not found"⟩

/-- The 400 handler body (in the source this handler reuses the Python
name `resource_not_found`; both registrations are live). -/
def bad_request : ErrorBody :=
  ⟨false, 400, "bad request"⟩

/-- The `AuthError` handler: always status 401, with the description of
the failure as the message. -/
def authorization_errors (e : AuthError) : ErrorBody :=
  ⟨false, 401, e.description⟩

/-- A finished HTTP response: status plus success or error body, or an
unhandled server fault (500). -/
inductive HttpResponse where
  | success (status : Nat) (body : SuccessBody)
  | failure (status : Nat) (body : ErrorBody)
  | serverFault
  deriving DecidableEq

/-- Apply the registered error handlers to a handler outcome. -/
def respond : HResult → HttpResponse
  | .ok b => .success 200 b
  | .aborted status =>
    if status = 422 then .failure 422 unprocessable
    else if status = 404 then .failure 404 resource_not_found
    else if status = 400 then .failure 400 bad_request
    else .serverFault
  | .authFail e => .failure 401 (authorization_errors e)
  | .fault => .serverFault

/-- SQLAlchemy `Query.one_or_none()`: `some none` when no row matches,
`some (some d)` for a unique match, `none` for the MultipleResultsFound
exception. -/
def one_or_none (pred : Drink → Bool) (drinks : List Drink) : Option (Option Drink) :=
  match drinks.filter pred with
  | [] => some none
  | [d] => some (some d)
  | _ => none

/-- Route GET `/drinks`: list every row in summary (`short`) view.
Public: no authorization gate.  A row whose blob does not yield a
well-formed summary view makes the handler raise (server fault). -/
def get_drinks (s : Store) : HResult :=
  match s.drinks.mapM Drink.short with
  | some drink_list => .ok (.drinks drink_list)
  | none => .fault

/-- Route GET `/drinks-detail`: list every row in detailed (`long`)
view. -/
def get_drinks_detail (s : Store) : HResult :=
  .ok (.drinks (s.drinks.map Drink.long))

/-- Route POST `/drinks` after the auth gate: abort 422 when
`new_title == '' or new_recipe == ''` (where `new_recipe` is the `dumps`
output), abort 400 when a row with the same title exists, else insert a
new row with a fresh id and return it in detailed view. -/
def create_drinks (body : Body) (s : Store) : HResult × Store :=
  let new_title := body.title
  let new_recipe := dumps body.recipe
  if pyEqEmptyStr new_title || decide (new_recipe = "") then
    (.aborted 422, s)
  else if (s.drinks.find? (fun d => decide (d.title = new_title))).isSome then
    (.aborted 400, s)
  else
    let drink : Drink := ⟨s.nextId, new_title, body.recipe⟩
    (.ok (.drinks [drink.long]), ⟨s.drinks ++ [drink], s.nextId + 1⟩)

/-- Route PATCH `/drinks/<id>` after the auth gate: abort 404 when the id
matches no row; otherwise replace the title when `new_title != ''` and the
recipe when `new_recipe != ''` (where `new_recipe` is the `dumps` output,
never empty), persist, and return the updated row in detailed view. -/
def patch_drinks (body : Body) (id : Nat) (s : Store) : HResult × Store :=
  match one_or_none (fun d => decide (d.id = id)) s.drinks with
  | none => (.fault, s)
  | some none => (.aborted 404, s)
  | some (some drink) =>
    let new_title := body.title
    let new_recipe := dumps body.recipe
    let drink1 := if pyEqEmptyStr new_title = false then
        { drink with title := new_title } else drink
    let drink2 := if new_recipe ≠ "" then
        { drink1 with recipe := body.recipe } else drink1
    (.ok (.drinks [drink2.long]),
     ⟨s.drinks.map (fun d => if d.id = id then drink2 else d), s.nextId⟩)

/-- Route DELETE `/drinks/<id>` after the auth gate: abort 404 when the id
matches no row; otherwise remove the row and return the deleted id (not
the row). -/
def delete_drinks (id : Nat) (s : Store) : HResult × Store :=
  match one_or_none (fun d => decide (d.id = id)) s.drinks with
  | none => (.fault, s)
  | some none => (.aborted 404, s)
  | some (some _drink) =>
    (.ok (.deleted id), ⟨s.drinks.filter (fun d => decide (¬ d.id = id)), s.nextId⟩)

/-- Run a permission-gated handler: an authorization failure surfaces
through the `AuthError` handler and the store is untouched. -/
def with_auth (permission : String) (tok : Except AuthError Payload)
    (handler : Payload → Store → HResult × Store) (s : Store) : HttpResponse × Store :=
  match requires_auth permission tok with
  | .error e => (respond (.authFail e), s)
  | .ok payload =>
    let r := handler payload s
    (respond r.1, r.2)

/-- The public list route: no token is consulted at all. -/
def getDrinksRoute (s : Store) : HttpResponse :=
  respond (get_drinks s)

/-- The detail list route, gated on the detail permission. -/
def getDrinksDetailRoute (tok : Except AuthError Payload) (s : Store) : HttpResponse × Store :=
  with_auth ("get:drinks-detail") tok (fun _ st => (get_drinks_detail st, st)) s

/-- The create route, gated on the create permission. -/
def postDrinksRoute (tok : Except AuthError Payload) (body : Body) (s : Store) :
    HttpResponse × Store :=
  with_auth ("post:drinks") tok (fun _ st => create_drinks body st) s

/-- The update route, gated on the update permission. -/
def patchDrinksRoute (tok : Except AuthError Payload) (id : Nat) (body : Body) (s : Store) :
    HttpResponse × Store :=
  with_auth ("patch:drinks") tok (fun _ st => patch_drinks body id st) s

/-- The delete route, gated on the delete permission. -/
def deleteDrinksRoute (tok : Except AuthError Payload) (id : Nat) (s : Store) :
    HttpResponse × Store :=
  with_auth ("delete:drinks") tok (fun _ st => delete_drinks id st) s

/-- The route table. -/
inductive Route where
  | getDrinks
  | getDrinksDetail
  | postDrinks
  | patchDrinks
  | deleteDrinks
  deriving DecidableEq

/-- The permission each route requires; the public summary list requires
none. -/
def requiredPermission : Route → Option String
  | .getDrinks => none
  | .getDrinksDetail => some ("get:drinks-detail")
  | .postDrinks => some ("post:drinks")
  | .patchDrinks => some ("patch:drinks")
  | .deleteDrinks => some ("delete:drinks")

/-- Store states reachable by the operations: every id is below the
generator, ids are pairwise distinct, and no row carries the empty-string
title (creation rejects it and update never writes it). -/
def Store.WF (s : Store) : Prop :=
  (∀ d ∈ s.drinks, d.id < s.nextId) ∧
  (s.drinks.map Drink.id).Nodup ∧
  (∀ d ∈ s.drinks, d.title ≠ .str "")

instance Store.instDecidableWF (s : Store) : Decidable s.WF :=
  decidable_of_iff
    ((∀ d ∈ s.drinks, d.id < s.nextId) ∧
     (s.drinks.map Drink.id).Nodup ∧
     (∀ d ∈ s.drinks, d.title ≠ .str "")) Iff.rfl

/-- The id field of a JSON object, as a client would read it off a
response entry. -/
def idField : JsonVal → Option JsonVal
  | .obj fields => lookupField fields ("id")
  | _ => none

/-- Every entry of a summary-view recipe is an object exposing exactly a
color and a parts field, with the ingredient name omitted. -/
def summaryEntries : JsonList → Prop
  | .nil => True
  | .cons v rest =>
    (∃ c p, v = .obj (.cons ("color") c (.cons ("parts") p .nil))) ∧ summaryEntries rest

/-- A sample well-formed recipe: one ingredient with name, color and
parts. -/
def sampleRecipe : JsonVal :=
  .arr (.cons (.obj (.cons ("name") (.str "water")
    (.cons ("color") (.str "blue") (.cons ("parts") (.num 1) .nil)))) .nil)

/-- A sample stored drink. -/
def sampleDrink : Drink :=
  ⟨1, .str "Water", sampleRecipe⟩

/-- A sample store holding the sample drink, with the id generator ahead
of every stored id. -/
def sampleStore : Store :=
  ⟨[sampleDrink], 2⟩

/-- A verified token whose claims carry exactly the given permission. -/
def goodTok (perm : String) : Except AuthError Payload :=
  .ok ⟨some [perm]⟩

/-- The summary view of the sample drink: ingredient name omitted. -/
def sampleSummary : JsonVal :=
  .obj (.cons ("id") (.num 1) (.cons ("title") (.str "Water")
    (.cons ("recipe") (.arr (.cons (.obj (.cons ("color") (.str "blue")
      (.cons ("parts") (.num 1) .nil))) .nil)) .nil)))

/-! ### Library lemmas: decimal printing is never empty -/

theorem toDigitsCore_length_le (b : Nat) :
    ∀ (f n : Nat) (l : List Char), l.length ≤ (Nat.toDigitsCore b f n l).length := by
  intro f
  induction f with
  | zero => intro n l; simp [Nat.toDigitsCore]
  | succ f ih =>
    intro n l
    simp only [Nat.toDigitsCore]
    split
    · simp
    · exact le_trans (by simp) (ih (n / b) (Nat.digitChar (n % b) :: l))

theorem one_le_toDigits_length (b n : Nat) : 1 ≤ (Nat.toDigits b n).length := by
  simp only [Nat.toDigits, Nat.toDigitsCore]
  split
  · simp
  · exact le_trans (by simp) (toDigitsCore_length_le b n (n / b) [Nat.digitChar (n % b)])

theorem one_le_length_natRepr (n : Nat) : 1 ≤ (Nat.repr n).length := by
  simp only [Nat.repr, String.length, List.asString]
  exact one_le_toDigits_length 10 n

theorem one_le_length_intRepr (n : Int) : 1 ≤ (Int.repr n).length := by
  cases n with
  | ofNat m => simpa [Int.repr] using one_le_length_natRepr m
  | negSucc m =>
    have h2 : (Int.repr (Int.negSucc m)).length = 1 + (Nat.repr (m + 1)).length := by
      simp [Int.repr, String.length_append]
      decide
    have h3 := one_le_length_natRepr (m + 1)
    omega

/-! ### The serialization of any JSON value is a non-empty string -/

theorem one_le_length_dumps (v : JsonVal) : 1 ≤ (dumps v).length := by
  have hq : ("\"" : String).length = 1 := by decide
  have hlb : ("[" : String).length = 1 := by decide
  have hob : ("\x7b" : String).length = 1 := by decide
  cases v with
  | null => simp only [dumps]; decide
  | bool b => cases b <;> (simp only [dumps]; decide)
  | num n => simpa [dumps] using one_le_length_intRepr n
  | str s =>
    simp only [dumps, String.length_append]
    omega
  | arr elems =>
    simp only [dumps, String.length_append]
    omega
  | obj fields =>
    simp only [dumps, String.length_append]
    omega

theorem dumps_ne_empty (v : JsonVal) : dumps v ≠ "" := by
  intro h
  have h1 := one_le_length_dumps v
  rw [h] at h1
  exact absurd h1 (by decide)

/-! ### Characterizations of the handlers -/

theorem pyEqEmptyStr_eq_false {v : JsonVal} (h : v ≠ .str "") : pyEqEmptyStr v = false := by
  simp [pyEqEmptyStr, h]

theorem create_drinks_eq (body : Body) (s : Store) :
    create_drinks body s =
      if body.title = JsonVal.str "" then (.aborted 422, s)
      else if (s.drinks.find? (fun d => decide (d.title = body.title))).isSome then
        (.aborted 400, s)
      else
        (.ok (.drinks [Drink.long ⟨s.nextId, body.title, body.recipe⟩]),
         ⟨s.drinks ++ [⟨s.nextId, body.title, body.recipe⟩], s.nextId + 1⟩) := by
  have hr : decide (dumps body.recipe = "") = false := by
    simp [dumps_ne_empty body.recipe]
  by_cases ht : body.title = JsonVal.str ""
  · simp [create_drinks, pyEqEmptyStr, ht, hr]
  · simp [create_drinks, pyEqEmptyStr, ht, hr]

theorem one_or_none_no_match (id : Nat) (drinks : List Drink)
    (h : ∀ d ∈ drinks, d.id ≠ id) :
    one_or_none (fun d => decide (d.id = id)) drinks = some none := by
  have hf : drinks.filter (fun d => decide (d.id = id)) = [] := by
    refine List.filter_eq_nil_iff.mpr ?_
    intro d hd
    simpa using h d hd
  simp [one_or_none, hf]

theorem filter_id_eq_singleton (drinks : List Drink)
    (hnd : (drinks.map Drink.id).Nodup) (d : Drink) (hd : d ∈ drinks) :
    drinks.filter (fun e => decide (e.id = d.id)) = [d] := by
  induction drinks with
  | nil => cases hd
  | cons a l ih =>
    rw [List.map_cons, List.nodup_cons] at hnd
    rcases List.mem_cons.mp hd with h | h
    · subst h
      have hl : l.filter (fun e => decide (e.id = d.id)) = [] := by
        refine List.filter_eq_nil_iff.mpr ?_
        intro e he hid
        exact hnd.1 (by
          simp only [decide_eq_true_eq] at hid
          exact hid ▸ List.mem_map_of_mem Drink.id he)
      simp [List.filter, hl]
    · have hne : ¬ (a.id = d.id) := by
        intro heq
        exact hnd.1 (heq ▸ List.mem_map_of_mem Drink.id h)
      simp [List.filter, hne, ih hnd.2 h]

theorem one_or_none_unique (drinks : List Drink)
    (hnd : (drinks.map Drink.id).Nodup) (d : Drink) (hd : d ∈ drinks) :
    one_or_none (fun e => decide (e.id = d.id)) drinks = some (some d) := by
  simp [one_or_none, filter_id_eq_singleton drinks hnd d hd]

theorem patch_drinks_found (body : Body) (id : Nat) (s : Store) (d : Drink)
    (h : one_or_none (fun e => decide (e.id = id)) s.drinks = some (some d)) :
    patch_drinks body id s =
      (.ok (.drinks [Drink.long
          ⟨d.id, if body.title = JsonVal.str "" then d.title else body.title, body.recipe⟩]),
       ⟨s.drinks.map (fun e => if e.id = id then
          ⟨d.id, if body.title = JsonVal.str "" then d.title else body.title, body.recipe⟩
          else e), s.nextId⟩) := by
  have hr : dumps body.recipe ≠ "" := dumps_ne_empty body.recipe
  by_cases ht : body.title = JsonVal.str ""
  · simp [patch_drinks, h, pyEqEmptyStr, ht, hr]
  · simp [patch_drinks, h, pyEqEmptyStr, ht, hr]

theorem delete_drinks_found (id : Nat) (s : Store) (d : Drink)
    (h : one_or_none (fun e => decide (e.id = id)) s.drinks = some (some d)) :
    delete_drinks id s =
      (.ok (.deleted id), ⟨s.drinks.filter (fun e => decide (¬ e.id = id)), s.nextId⟩) := by
  simp [delete_drinks, h]

theorem with_auth_ok (permission : String) (tok : Except AuthError Payload) (p : Payload)
    (handler : Payload → Store → HResult × Store) (s : Store)
    (h : requires_auth permission tok = .ok p) :
    with_auth permission tok handler s = (respond (handler p s).1, (handler p s).2) := by
  simp [with_auth, h]

theorem with_auth_error (permission : String) (tok : Except AuthError Payload) (e : AuthError)
    (handler : Payload → Store → HResult × Store) (s : Store)
    (h : requires_auth permission tok = .error e) :
    with_auth permission tok handler s = (.failure 401 (authorization_errors e), s) := by
  simp [with_auth, h, respond]

theorem mapM_short_mem (drinks : List Drink) (l : List JsonVal)
    (h : drinks.mapM Drink.short = some l) :
    ∀ v ∈ l, ∃ d ∈ drinks, Drink.short d = some v := by
  induction drinks generalizing l with
  | nil =>
    simp only [List.mapM_nil, pure, Option.some.injEq] at h
    subst h
    intro v hv
    cases hv
  | cons a t ih =>
    rw [List.mapM_cons] at h
    cases ha : Drink.short a with
    | none => rw [ha] at h; cases h
    | some va =>
      rw [ha] at h
      cases htl : t.mapM Drink.short with
      | none => rw [htl] at h; cases h
      | some lt =>
        rw [htl] at h
        simp only [Option.bind_eq_bind, Option.some_bind, Option.pure_def,
          Option.some.injEq] at h
        subst h
        intro v hv
        rcases List.mem_cons.mp hv with hv | hv
        · exact ⟨a, List.mem_cons_self a t, hv ▸ ha⟩
        · rcases ih lt htl v hv with ⟨d, hdmem, hds⟩
          exact ⟨d, List.mem_cons_of_mem a hdmem, hds⟩

theorem find?_title_none (body : Body) (drinks : List Drink)
    (h : ∀ d ∈ drinks, d.title ≠ body.title) :
    (drinks.find? (fun d => decide (d.title = body.title))).isSome = false := by
  have hn : drinks.find? (fun d => decide (d.title = body.title)) = none := by
    rw [List.find?_eq_none]
    intro x hx
    simpa using h x hx
  simp [hn]

theorem mapM_short_forall₂ (drinks : List Drink) (l : List JsonVal)
    (h : drinks.mapM Drink.short = some l) :
    List.Forall₂ (fun d v => Drink.short d = some v) drinks l := by
  induction drinks generalizing l with
  | nil =>
    simp only [List.mapM_nil, Option.pure_def, Option.some.injEq] at h
    subst h
    exact List.Forall₂.nil
  | cons a t ih =>
    rw [List.mapM_cons] at h
    cases ha : Drink.short a with
    | none => rw [ha] at h; cases h
    | some va =>
      rw [ha] at h
      cases htl : t.mapM Drink.short with
      | none => rw [htl] at h; cases h
      | some lt =>
        rw [htl] at h
        simp only [Option.bind_eq_bind, Option.some_bind, Option.pure_def,
          Option.some.injEq] at h
        subst h
        exact List.Forall₂.cons ha (ih lt htl)

theorem shortRecipeEntry_shape (v v1 : JsonVal) (h : shortRecipeEntry v = some v1) :
    ∃ c p, v1 = .obj (.cons ("color") c (.cons ("parts") p .nil)) := by
  cases v with
  | obj fields =>
    simp only [shortRecipeEntry] at h
    split at h
    · rename_i c p hc hp
      exact ⟨c, p, (Option.some.injEq _ _ ▸ h).symm⟩
    · cases h
  | null => cases h
  | bool b => cases h
  | num n => cases h
  | str s => cases h
  | arr elems => cases h

theorem shortRecipeList_entries : ∀ (entries l : JsonList),
    shortRecipeList entries = some l → summaryEntries l
  | .nil, l, h => by
    simp only [shortRecipeList, Option.some.injEq] at h
    subst h
    trivial
  | .cons v rest, l, h => by
    simp only [shortRecipeList] at h
    split at h
    · rename_i v1 rest1 hv hr
      simp only [Option.some.injEq] at h
      subst h
      exact ⟨shortRecipeEntry_shape v v1 hv, shortRecipeList_entries rest rest1 hr⟩
    · cases h

theorem short_shape (d : Drink) (v : JsonVal) (h : Drink.short d = some v) :
    ∃ entries, v = JsonVal.obj (.cons ("id") (.num d.id) (.cons ("title") d.title
        (.cons ("recipe") (.arr entries) .nil))) ∧ summaryEntries entries := by
  rw [Drink.short.eq_def] at h
  split at h
  · rename_i entries _heq
    cases hl : shortRecipeList entries with
    | none => rw [hl] at h; cases h
    | some l =>
      rw [hl] at h
      simp only [Option.map_some', Option.some.injEq] at h
      exact ⟨l, h.symm, shortRecipeList_entries entries l hl⟩
  · cases h

theorem get_drinks_ok (st : Store) (l : List JsonVal)
    (h : get_drinks st = .ok (.drinks l)) :
    st.drinks.mapM Drink.short = some l := by
  simp only [get_drinks] at h
  split at h
  · rename_i dl heq
    simp only [HResult.ok.injEq, SuccessBody.drinks.injEq] at h
    rw [h] at heq
    exact heq
  · cases h

theorem short_idField (d : Drink) (v : JsonVal) (h : Drink.short d = some v) :
    idField v = some (.num d.id) := by
  rcases short_shape d v h with ⟨entries, hv, _⟩
  subst hv
  simp [idField, lookupField]

theorem create_drinks_aborted_store (body : Body) (s : Store) :
    ∀ st, (create_drinks body s).1 = .aborted st → (create_drinks body s).2 = s := by
  intro st h
  rw [create_drinks_eq] at h ⊢
  by_cases ht : body.title = JsonVal.str ""
  · simp [ht]
  · by_cases hf : ((s.drinks.find? (fun d => decide (d.title = body.title))).isSome = true)
    · simp [ht, hf]
    · simp [ht, hf] at h

theorem create_drinks_no_authFail (body : Body) (s : Store) :
    ∀ e, (create_drinks body s).1 ≠ .authFail e := by
  intro e h
  rw [create_drinks_eq] at h
  by_cases ht : body.title = JsonVal.str ""
  · simp [ht] at h
  · by_cases hf : ((s.drinks.find? (fun d => decide (d.title = body.title))).isSome = true)
    · simp [ht, hf] at h
    · simp [ht, hf] at h

theorem patch_drinks_aborted_store (body : Body) (id : Nat) (s : Store) :
    ∀ st, (patch_drinks body id s).1 = .aborted st → (patch_drinks body id s).2 = s := by
  intro st h
  cases ho : one_or_none (fun e => decide (e.id = id)) s.drinks with
  | none => simp [patch_drinks, ho]
  | some o =>
    cases o with
    | none => simp [patch_drinks, ho]
    | some drink => simp [patch_drinks, ho] at h

theorem patch_drinks_no_authFail (body : Body) (id : Nat) (s : Store) :
    ∀ e, (patch_drinks body id s).1 ≠ .authFail e := by
  intro e h
  cases ho : one_or_none (fun e => decide (e.id = id)) s.drinks with
  | none => simp [patch_drinks, ho] at h
  | some o =>
    cases o with
    | none => simp [patch_drinks, ho] at h
    | some drink => simp [patch_drinks, ho] at h

theorem delete_drinks_aborted_store (id : Nat) (s : Store) :
    ∀ st, (delete_drinks id s).1 = .aborted st → (delete_drinks id s).2 = s := by
  intro st h
  cases ho : one_or_none (fun e => decide (e.id = id)) s.drinks with
  | none => simp [delete_drinks, ho]
  | some o =>
    cases o with
    | none => simp [delete_drinks, ho]
    | some drink => simp [delete_drinks, ho] at h

theorem delete_drinks_no_authFail (id : Nat) (s : Store) :
    ∀ e, (delete_drinks id s).1 ≠ .authFail e := by
  intro e h
  cases ho : one_or_none (fun e => decide (e.id = id)) s.drinks with
  | none => simp [delete_drinks, ho] at h
  | some o =>
    cases o with
    | none => simp [delete_drinks, ho] at h
    | some drink => simp [delete_drinks, ho] at h

theorem with_auth_failure_store (perm : String) (tok : Except AuthError Payload)
    (handler : Payload → Store → HResult × Store) (s : Store)
    (hab : ∀ p st, (handler p s).1 = .aborted st → (handler p s).2 = s)
    (hnoauth : ∀ p e, (handler p s).1 ≠ .authFail e) :
    ∀ status b, (with_auth perm tok handler s).1 = .failure status b →
      (with_auth perm tok handler s).2 = s := by
  intro status b hr
  cases hq : requires_auth perm tok with
  | error e => rw [with_auth_error perm tok e handler s hq]
  | ok p =>
    rw [with_auth_ok perm tok p handler s hq] at hr ⊢
    cases hres : (handler p s).1 with
    | ok bdy => rw [hres] at hr; simp [respond] at hr
    | aborted st => exact hab p st hres
    | authFail e => exact absurd hres (hnoauth p e)
    | fault => rw [hres] at hr; simp [respond] at hr

/-! ### The claims -/

/-- C1: a POST /drinks (post permission granted) whose title exactly equals
the title of a drink already in a reachable store returns the
duplicate-title error: status 400 with body success=false, error=400,
message "bad request", and the store is unchanged — no overwrite, no
insert. -/
theorem claim_C1 (tok : Except AuthError Payload) (p : Payload)
    (body : Body) (s : Store) (d : Drink)
    (hauth : requires_auth ("post:drinks") tok = .ok p)
    (hwf : s.WF) (hd : d ∈ s.drinks) (ht : d.title = body.title) :
    postDrinksRoute tok body s = (.failure 400 bad_request, s) := by
  have hne : body.title ≠ JsonVal.str "" := ht ▸ hwf.2.2 d hd
  have hfind : (s.drinks.find? (fun e => decide (e.title = body.title))).isSome = true := by
    rw [List.find?_isSome]
    exact ⟨d, hd, by simp [ht]⟩
  rw [postDrinksRoute, with_auth_ok ("post:drinks") tok p _ s hauth]
  simp [create_drinks_eq, hne, hfind, respond]

/-- Witness for C1: re-posting the sample drink title on the sample store
is rejected with the 400 body and the store kept intact. -/
theorem claim_C1_witness :
    postDrinksRoute (goodTok ("post:drinks")) ⟨.str "Water", .null⟩ sampleStore
      = (.failure 400 bad_request, sampleStore) :=
  claim_C1 (goodTok ("post:drinks")) ⟨some ["post:drinks"]⟩
    ⟨.str "Water", .null⟩ sampleStore sampleDrink rfl (by decide) (by decide) (by decide)

/-- C3 counterexample: a POST with a valid unique title and an
empty-string recipe is NOT rejected with 422 — it succeeds with 200 and
inserts a row, refuting the claim that an empty recipe triggers the
validation error. -/
theorem claim_C3_counterexample :
    postDrinksRoute (goodTok ("post:drinks")) ⟨.str "Water", .str ""⟩ ⟨[], 1⟩
      = (.success 200 (.drinks [Drink.long ⟨1, .str "Water", .str ""⟩]),
         ⟨[⟨1, .str "Water", .str ""⟩], 2⟩) ∧
    (postDrinksRoute (goodTok ("post:drinks")) ⟨.str "Water", .str ""⟩ ⟨[], 1⟩).1
      ≠ .failure 422 unprocessable := by
  decide

/-- C3 (amended): the create operation rejects with 422 (body
success=false, error=422, message "unprocessable", store unchanged)
exactly when the supplied title is the empty string.  An empty or missing
recipe never triggers the validation branch, because the stored value is
the json.dumps output, which is never the empty string; a missing title
(null) also passes the check. -/
theorem claim_C3_amended (tok : Except AuthError Payload) (p : Payload)
    (body : Body) (s : Store)
    (hauth : requires_auth ("post:drinks") tok = .ok p) :
    ((postDrinksRoute tok body s).1 = .failure 422 unprocessable
        ↔ body.title = .str "") ∧
    (body.title = .str "" →
        postDrinksRoute tok body s = (.failure 422 unprocessable, s)) := by
  rw [postDrinksRoute, with_auth_ok ("post:drinks") tok p _ s hauth]
  by_cases ht : body.title = JsonVal.str ""
  · simp [create_drinks_eq, ht, respond]
  · refine ⟨?_, fun hcon => absurd hcon ht⟩
    by_cases hf : (s.drinks.find? (fun e => decide (e.title = body.title))).isSome = true
    · simp [create_drinks_eq, ht, hf, respond, unprocessable, bad_request]
    · simp [create_drinks_eq, ht, hf, respond, unprocessable]

/-- Witness for C3 (amended): an empty-string title on the sample store is
rejected with the 422 body and the store kept intact. -/
theorem claim_C3_amended_witness :
    postDrinksRoute (goodTok ("post:drinks")) ⟨.str "", sampleRecipe⟩ sampleStore
      = (.failure 422 unprocessable, sampleStore) :=
  (claim_C3_amended (goodTok ("post:drinks")) ⟨some ["post:drinks"]⟩
    ⟨.str "", sampleRecipe⟩ sampleStore rfl).2 (by decide)

/-- C4: a POST with a non-empty title not present in a reachable store and
a non-empty recipe (post permission granted) succeeds with 200, returns an
array holding exactly the new drink in detailed view, appends that row,
and assigns the generator id, which no stored drink carries. -/
theorem claim_C4 (tok : Except AuthError Payload) (p : Payload)
    (body : Body) (s : Store) (t : String)
    (hauth : requires_auth ("post:drinks") tok = .ok p)
    (hwf : s.WF)
    (htitle : body.title = .str t) (htne : t ≠ "")
    (_hrecipe : body.recipe ≠ .str "")
    (huniq : ∀ d ∈ s.drinks, d.title ≠ body.title) :
    postDrinksRoute tok body s
      = (.success 200 (.drinks [Drink.long ⟨s.nextId, body.title, body.recipe⟩]),
         ⟨s.drinks ++ [⟨s.nextId, body.title, body.recipe⟩], s.nextId + 1⟩) ∧
    ∀ d ∈ s.drinks, d.id ≠ s.nextId := by
  have hne : body.title ≠ JsonVal.str "" := by
    rw [htitle]
    simp [htne]
  have hfind := find?_title_none body s.drinks huniq
  refine ⟨?_, fun d hd hid => absurd (hwf.1 d hd) (by omega)⟩
  rw [postDrinksRoute, with_auth_ok ("post:drinks") tok p _ s hauth]
  simp [create_drinks_eq, hne, hfind, respond]

/-- Witness for C4: creating a fresh drink on the sample store inserts it
with the generator id 2. -/
theorem claim_C4_witness :
    postDrinksRoute (goodTok ("post:drinks")) ⟨.str "Cola", sampleRecipe⟩ sampleStore
      = (.success 200 (.drinks [Drink.long ⟨2, .str "Cola", sampleRecipe⟩]),
         ⟨sampleStore.drinks ++ [⟨2, .str "Cola", sampleRecipe⟩], 3⟩) ∧
    ∀ d ∈ sampleStore.drinks, d.id ≠ 2 :=
  claim_C4 (goodTok ("post:drinks")) ⟨some ["post:drinks"]⟩
    ⟨.str "Cola", sampleRecipe⟩ sampleStore "Cola" rfl (by decide) rfl (by decide)
    (by decide) (by decide)

/-- C9: a POST whose body lacks the recipe key (Python None, JSON null),
with a valid non-duplicate title and the post permission, is not rejected:
null serializes to the non-empty string "null", the validation branch is
not taken, and a drink whose stored recipe blob is "null" is inserted and
returned with 200. -/
theorem claim_C9 (tok : Except AuthError Payload) (p : Payload)
    (body : Body) (s : Store) (t : String)
    (hauth : requires_auth ("post:drinks") tok = .ok p)
    (hrec : body.recipe = .null)
    (htitle : body.title = .str t) (htne : t ≠ "")
    (huniq : ∀ d ∈ s.drinks, d.title ≠ body.title) :
    dumps body.recipe = "null" ∧
    postDrinksRoute tok body s
      = (.success 200 (.drinks [Drink.long ⟨s.nextId, body.title, JsonVal.null⟩]),
         ⟨s.drinks ++ [⟨s.nextId, body.title, JsonVal.null⟩], s.nextId + 1⟩) := by
  have hne : body.title ≠ JsonVal.str "" := by
    rw [htitle]
    simp [htne]
  have hfind := find?_title_none body s.drinks huniq
  refine ⟨by rw [hrec]; rfl, ?_⟩
  rw [postDrinksRoute, with_auth_ok ("post:drinks") tok p _ s hauth]
  simp [create_drinks_eq, hne, hfind, respond, hrec]

/-- Witness for C9: posting with no recipe key inserts a drink whose
recipe is null (stored blob "null"). -/
theorem claim_C9_witness :
    dumps (Body.recipe ⟨.str "Cola", .null⟩) = "null" ∧
    postDrinksRoute (goodTok ("post:drinks")) ⟨.str "Cola", .null⟩ sampleStore
      = (.success 200 (.drinks [Drink.long ⟨2, .str "Cola", JsonVal.null⟩]),
         ⟨sampleStore.drinks ++ [⟨2, .str "Cola", JsonVal.null⟩], 3⟩) :=
  claim_C9 (goodTok ("post:drinks")) ⟨some ["post:drinks"]⟩
    ⟨.str "Cola", .null⟩ sampleStore "Cola" rfl rfl rfl (by decide) (by decide)

/-- C2 counterexample: on the sample store, a PATCH supplying an
empty-array recipe (and an empty-string title) replaces the stored recipe
with the empty array instead of leaving it unchanged, refuting the claim
that an empty recipe means no change. -/
theorem claim_C2_counterexample :
    (patchDrinksRoute (goodTok ("patch:drinks")) 1 ⟨.str "", .arr .nil⟩ sampleStore).2.drinks
      = [⟨1, .str "Water", .arr .nil⟩] ∧
    sampleDrink.recipe ≠ .arr .nil := by
  decide

/-- C2 (amended): for a PATCH on an existing id, the title is replaced iff
the supplied title value differs from the empty string (in particular a
missing title, read as null, overwrites it), while the recipe is always
replaced by the supplied value: the comparison guarding it tests the
json.dumps output against the empty string, and that output is never
empty.  Supplying an empty-string title leaves the title unchanged, but
supplying an empty or missing recipe does replace the stored recipe. -/
theorem claim_C2_amended (tok : Except AuthError Payload) (p : Payload)
    (body : Body) (id : Nat) (s : Store) (d : Drink)
    (hauth : requires_auth ("patch:drinks") tok = .ok p)
    (hone : one_or_none (fun e => decide (e.id = id)) s.drinks = some (some d)) :
    patchDrinksRoute tok id body s
      = (.success 200 (.drinks [Drink.long
           ⟨d.id, if body.title = JsonVal.str "" then d.title else body.title, body.recipe⟩]),
         ⟨s.drinks.map (fun e => if e.id = id then
             ⟨d.id, if body.title = JsonVal.str "" then d.title else body.title, body.recipe⟩
           else e), s.nextId⟩) := by
  rw [patchDrinksRoute, with_auth_ok ("patch:drinks") tok p _ s hauth]
  simp [patch_drinks_found body id s d hone, respond]

/-- Witness for C2 (amended): patching the sample drink with a fresh title
and an empty-array recipe replaces both fields. -/
theorem claim_C2_amended_witness :
    patchDrinksRoute (goodTok ("patch:drinks")) 1 ⟨.str "Fanta", .arr .nil⟩ sampleStore
      = (.success 200 (.drinks [Drink.long ⟨1, .str "Fanta", .arr .nil⟩]),
         ⟨[⟨1, .str "Fanta", .arr .nil⟩], 2⟩) := by
  have h := claim_C2_amended (goodTok ("patch:drinks")) ⟨some ["patch:drinks"]⟩
    ⟨.str "Fanta", .arr .nil⟩ 1 sampleStore sampleDrink rfl (by decide)
  simpa using h

/-- C5: PATCH and DELETE on an id matching no stored drink (permissions
granted) fail with status 404 and body success=false, error=404, message
"resource not found", and the store is unchanged. -/
theorem claim_C5 (tokP tokD : Except AuthError Payload) (pP pD : Payload)
    (body : Body) (s : Store) (id : Nat)
    (hauthP : requires_auth ("patch:drinks") tokP = .ok pP)
    (hauthD : requires_auth ("delete:drinks") tokD = .ok pD)
    (hmiss : ∀ d ∈ s.drinks, d.id ≠ id) :
    patchDrinksRoute tokP id body s = (.failure 404 resource_not_found, s) ∧
    deleteDrinksRoute tokD id s = (.failure 404 resource_not_found, s) := by
  have hone := one_or_none_no_match id s.drinks hmiss
  constructor
  · rw [patchDrinksRoute, with_auth_ok ("patch:drinks") tokP pP _ s hauthP]
    simp [patch_drinks, hone, respond]
  · rw [deleteDrinksRoute, with_auth_ok ("delete:drinks") tokD pD _ s hauthD]
    simp [delete_drinks, hone, respond]

/-- Witness for C5: id 9 is absent from the sample store; PATCH and DELETE
both return the 404 body and leave the store intact. -/
theorem claim_C5_witness :
    patchDrinksRoute (goodTok ("patch:drinks")) 9 ⟨.str "X", .null⟩ sampleStore
      = (.failure 404 resource_not_found, sampleStore) ∧
    deleteDrinksRoute (goodTok ("delete:drinks")) 9 sampleStore
      = (.failure 404 resource_not_found, sampleStore) :=
  claim_C5 (goodTok ("patch:drinks")) (goodTok ("delete:drinks"))
    ⟨some ["patch:drinks"]⟩ ⟨some ["delete:drinks"]⟩
    ⟨.str "X", .null⟩ sampleStore 9 rfl rfl (by decide)

/-- C6: DELETE on an existing id (delete permission granted, reachable
store) returns 200 with body success=true, deleted=id (the id, not the
row), removes exactly that row — every other row survives — and a
subsequent GET /drinks response contains no entry whose id field is the
deleted id. -/
theorem claim_C6 (tok : Except AuthError Payload) (p : Payload)
    (s : Store) (d : Drink)
    (hauth : requires_auth ("delete:drinks") tok = .ok p)
    (hwf : s.WF) (hd : d ∈ s.drinks) :
    deleteDrinksRoute tok d.id s
      = (.success 200 (.deleted d.id),
         ⟨s.drinks.filter (fun e => decide (¬ e.id = d.id)), s.nextId⟩) ∧
    (∀ e ∈ (deleteDrinksRoute tok d.id s).2.drinks, e.id ≠ d.id) ∧
    (∀ e ∈ s.drinks, e.id ≠ d.id → e ∈ (deleteDrinksRoute tok d.id s).2.drinks) ∧
    (∀ l, get_drinks (deleteDrinksRoute tok d.id s).2 = .ok (.drinks l) →
        ∀ v ∈ l, idField v ≠ some (.num d.id)) := by
  have hone := one_or_none_unique s.drinks hwf.2.1 d hd
  have hroute : deleteDrinksRoute tok d.id s
      = (.success 200 (.deleted d.id),
         ⟨s.drinks.filter (fun e => decide (¬ e.id = d.id)), s.nextId⟩) := by
    rw [deleteDrinksRoute, with_auth_ok ("delete:drinks") tok p _ s hauth]
    simp [delete_drinks_found d.id s d hone, respond]
  refine ⟨hroute, ?_, ?_, ?_⟩
  · rw [hroute]
    intro e he
    simpa using (List.mem_filter.mp he).2
  · rw [hroute]
    intro e he hne
    exact List.mem_filter.mpr ⟨he, by simpa using hne⟩
  · rw [hroute]
    intro l hl v hv
    have hm : (s.drinks.filter (fun e => decide (¬ e.id = d.id))).mapM Drink.short = some l :=
      get_drinks_ok ⟨s.drinks.filter (fun e => decide (¬ e.id = d.id)), s.nextId⟩ l hl
    rcases mapM_short_mem _ _ hm v hv with ⟨e, hemem, hes⟩
    have heid : e.id ≠ d.id := by simpa using (List.mem_filter.mp hemem).2
    rw [short_idField e v hes]
    intro hcon
    apply heid
    have h1 : (JsonVal.num e.id) = JsonVal.num d.id := Option.some.inj hcon
    have h2 : (e.id : Int) = (d.id : Int) := by injection h1
    exact_mod_cast h2

/-- Witness for C6: deleting the sample drink by its id returns the id and
empties the store. -/
theorem claim_C6_witness :
    deleteDrinksRoute (goodTok ("delete:drinks")) sampleDrink.id sampleStore
      = (.success 200 (.deleted sampleDrink.id),
         ⟨sampleStore.drinks.filter (fun e => decide (¬ e.id = sampleDrink.id)),
          sampleStore.nextId⟩) ∧
    (∀ e ∈ (deleteDrinksRoute (goodTok ("delete:drinks")) sampleDrink.id sampleStore).2.drinks,
        e.id ≠ sampleDrink.id) ∧
    (∀ e ∈ sampleStore.drinks, e.id ≠ sampleDrink.id →
        e ∈ (deleteDrinksRoute (goodTok ("delete:drinks")) sampleDrink.id sampleStore).2.drinks) ∧
    (∀ l, get_drinks
        (deleteDrinksRoute (goodTok ("delete:drinks")) sampleDrink.id sampleStore).2
          = .ok (.drinks l) →
        ∀ v ∈ l, idField v ≠ some (.num sampleDrink.id)) :=
  claim_C6 (goodTok ("delete:drinks")) ⟨some ["delete:drinks"]⟩
    sampleStore sampleDrink rfl (by decide) (by decide)

/-- C7: GET /drinks requires no permission (no authorization gate at all),
and on any store whose rows yield well-formed summary views it returns 200
with success=true and the summary list: entry-by-entry the list is the
short view of the stored drinks, each entry an object exposing id, title,
and a recipe whose entries carry only color and parts, with ingredient
names omitted. -/
theorem claim_C7 (s : Store) (l : List JsonVal)
    (h : s.drinks.mapM Drink.short = some l) :
    requiredPermission Route.getDrinks = none ∧
    getDrinksRoute s = .success 200 (.drinks l) ∧
    List.Forall₂ (fun d v => Drink.short d = some v) s.drinks l ∧
    (∀ v ∈ l, ∃ d ∈ s.drinks, Drink.short d = some v ∧
      ∃ entries, v = JsonVal.obj (.cons ("id") (.num d.id) (.cons ("title") d.title
        (.cons ("recipe") (.arr entries) .nil))) ∧ summaryEntries entries) := by
  refine ⟨rfl, ?_, mapM_short_forall₂ s.drinks l h, ?_⟩
  · rw [getDrinksRoute]
    simp only [get_drinks, h]
    simp [respond]
  · intro v hv
    rcases mapM_short_mem s.drinks l h v hv with ⟨d, hdmem, hds⟩
    rcases short_shape d v hds with ⟨entries, hshape, hsum⟩
    exact ⟨d, hdmem, hds, entries, hshape, hsum⟩

/-- Witness for C7 on the sample store: the route returns the single
summary entry with the ingredient name dropped. -/
theorem claim_C7_witness :
    requiredPermission Route.getDrinks = none ∧
    getDrinksRoute sampleStore = .success 200 (.drinks [sampleSummary]) ∧
    List.Forall₂ (fun d v => Drink.short d = some v) sampleStore.drinks [sampleSummary] ∧
    (∀ v ∈ [sampleSummary], ∃ d ∈ sampleStore.drinks, Drink.short d = some v ∧
      ∃ entries, v = JsonVal.obj (.cons ("id") (.num d.id) (.cons ("title") d.title
        (.cons ("recipe") (.arr entries) .nil))) ∧ summaryEntries entries) :=
  claim_C7 sampleStore [sampleSummary] (by decide)

/-- C8: every registered error handler produces a body with success=false
and the error field equal to the HTTP status; every authorization failure
is surfaced with status 401 and the description of the failure as the
message; and the two permission-related sub-kinds raised by the permission
check are distinguishable by their code and message although both surface
as 401. -/
theorem claim_C8 :
    (∀ r status b, respond r = .failure status b → b.success = false ∧ b.error = status) ∧
    (∀ e : AuthError, respond (.authFail e) = .failure 401 ⟨false, 401, e.description⟩) ∧
    (∀ perm, check_permissions perm ⟨none⟩
        = .error ⟨"missing permission claim", "no permissions in payload"⟩) ∧
    (∀ perm ps, perm ∉ ps → check_permissions perm ⟨some ps⟩
        = .error ⟨"insufficient permission", "unauthorized"⟩) ∧
    (("no permissions in payload" : String) ≠ "unauthorized" ∧
     ("missing permission claim" : String) ≠ "insufficient permission") := by
  refine ⟨?_, fun e => rfl, fun perm => rfl, ?_, by decide, by decide⟩
  · intro r status b hr
    cases r with
    | ok bdy => simp [respond] at hr
    | aborted st =>
      simp only [respond] at hr
      split at hr
      · injection hr with h1 h2
        subst h1
        subst h2
        exact ⟨rfl, rfl⟩
      · split at hr
        · injection hr with h1 h2
          subst h1
          subst h2
          exact ⟨rfl, rfl⟩
        · split at hr
          · injection hr with h1 h2
            subst h1
            subst h2
            exact ⟨rfl, rfl⟩
          · cases hr
    | authFail e =>
      simp only [respond] at hr
      injection hr with h1 h2
      subst h1
      subst h2
      exact ⟨rfl, rfl⟩
    | fault => simp [respond] at hr
  · intro perm ps hnotin
    simp [check_permissions, hnotin]

/-- Witness for C8: the 422 handler body satisfies the envelope law, and a
payload lacking the required permission yields the insufficient-permission
failure. -/
theorem claim_C8_witness :
    (unprocessable.success = false ∧ unprocessable.error = 422) ∧
    check_permissions ("post:drinks") ⟨some ["get:drinks-detail"]⟩
      = .error ⟨"insufficient permission", "unauthorized"⟩ :=
  ⟨claim_C8.1 (.aborted 422) 422 unprocessable (by decide),
   claim_C8.2.2.2.1 ("post:drinks") ["get:drinks-detail"] (by decide)⟩

/-- C10: every failing POST, PATCH or DELETE — validation, duplicate,
not-found, or authorization failure — leaves the stored drinks unchanged:
the failure is raised before any insert, update or delete call reaches the
store. -/
theorem claim_C10 (tok : Except AuthError Payload) (body : Body) (s : Store) (id : Nat) :
    (∀ status b, (postDrinksRoute tok body s).1 = .failure status b →
        (postDrinksRoute tok body s).2 = s) ∧
    (∀ status b, (patchDrinksRoute tok id body s).1 = .failure status b →
        (patchDrinksRoute tok id body s).2 = s) ∧
    (∀ status b, (deleteDrinksRoute tok id s).1 = .failure status b →
        (deleteDrinksRoute tok id s).2 = s) := by
  refine ⟨?_, ?_, ?_⟩
  · exact with_auth_failure_store ("post:drinks") tok _ s
      (fun _p => create_drinks_aborted_store body s)
      (fun _p => create_drinks_no_authFail body s)
  · exact with_auth_failure_store ("patch:drinks") tok _ s
      (fun _p => patch_drinks_aborted_store body id s)
      (fun _p => patch_drinks_no_authFail body id s)
  · exact with_auth_failure_store ("delete:drinks") tok _ s
      (fun _p => delete_drinks_aborted_store id s)
      (fun _p => delete_drinks_no_authFail id s)

/-- Witness for C10: a request whose token fails verification leaves the
sample store untouched. -/
theorem claim_C10_witness :
    (postDrinksRoute (.error ⟨"invalid header", "unable to verify"⟩)
        ⟨.str "Cola", .null⟩ sampleStore).2 = sampleStore :=
  (claim_C10 (.error ⟨"invalid header", "unable to verify"⟩)
      ⟨.str "Cola", .null⟩ sampleStore 1).1
    401 ⟨false, 401, "unable to verify"⟩ (by decide)

end CoffeeShop
